import Mathlib

/-!
Shallow embedding of `uiautomator2/image.py`: image ingestion (`imread` and its
helpers) and the locate-wait-click loop of class `ImageX`.

External collaborators (cv2, base64, requests, the filesystem, the findit
template engine, the device) are modelled as environment records of pure
functions; the control flow of the Python code is translated line by line.
-/

/-- A decoded OpenCV image (`np.ndarray`), abstracted to an identifier:
the claims under study concern dispatch, errors and control flow,
not pixel contents. -/
structure CvImage where
  id : Nat
deriving DecidableEq

/-- A PIL image object, likewise abstract. -/
structure PILImage where
  id : Nat
deriving DecidableEq

/-- The `data` argument of `imread`: an already-decoded `np.ndarray`,
a PIL `Image.Image`, or a string (path / url / data-url). -/
inductive ImageRef where
  | ndarray (img : CvImage)
  | pil (img : PILImage)
  | str (data : String)
deriving DecidableEq

/-- The distinct raise sites of `imread` and its helpers.
`dataUrlInvalid` is `IOError("data url is invalid, head %s" % data[:20])`,
`imageFormatError` is `IOError("Image format error: %s" % data)`,
`invalidData` is `IOError("image read invalid data: %s" % data)`,
`fetchError` is an exception propagating out of `requests.get`. -/
inductive ImreadError where
  | dataUrlInvalid (head : String)
  | imageFormatError (path : String)
  | invalidData (data : String)
  | fetchError (url : String)
deriving DecidableEq

/-- Environment of external effects used by `imread`:
`base64.decodestring`, `cv2.imdecode` (returns `None` on undecodable bytes),
`requests.get(url).content` (may raise: modelled as `Except`),
`os.path.isfile`, `cv2.imread` (returns `None` on failure), and the
`pil2cv` channel conversion (pure, pixel-level, abstracted). -/
structure DecodeEnv where
  b64decode : String → List Nat
  imdecode : List Nat → Option CvImage
  fetch : String → Except Unit (List Nat)
  fileExists : String → Bool
  cvimread : String → Option CvImage
  pil2cv : PILImage → CvImage

/-- `needle`-in-`hay` substring search returning the first index,
the semantics of Python's `str.find` (as `Option` instead of `-1`). -/
def findSubAux (needle : List Char) : List Char → Nat → Option Nat
  | [], i => if needle = [] then some i else none
  | c :: rest, i =>
    if needle.isPrefixOf (c :: rest) then some i
    else findSubAux needle rest (i + 1)

/-- `hay.find(needle)` from Python, `none` for `-1`. -/
def strFind (hay needle : String) : Option Nat :=
  findSubAux needle.data hay.data 0

/-- Python's `s.startswith(pre)` (operating on code points). -/
def strStartsWith (s pre : String) : Bool :=
  pre.data.isPrefixOf s.data

/-- Python's slice `s[:n]` (by code points). -/
def strTake (s : String) (n : Nat) : String :=
  ⟨s.data.take n⟩

/-- Python's slice `s[n:]` (by code points). -/
def strDrop (s : String) (n : Nat) : String :=
  ⟨s.data.drop n⟩

/-- `_open_data_url(data)`: find `'base64,'`; absent ⇒
`IOError("data url is invalid, head %s" % data[:20])`; otherwise base64-decode
the payload after the marker and return `cv2.imdecode` of it — the source
returns the `imdecode` result directly, `None` included. -/
def _open_data_url (env : DecodeEnv) (data : String) : Except ImreadError (Option CvImage) :=
  match strFind data "base64," with
  | none => .error (.dataUrlInvalid (strTake data 20))
  | some pos =>
    let raw := env.b64decode (strDrop data (pos + 7))
    .ok (env.imdecode raw)

/-- `_open_image_url(url)`: `requests.get(url).content` then `cv2.imdecode`;
a network failure propagates, an undecodable body yields the `imdecode`
result directly, `None` included. -/
def _open_image_url (env : DecodeEnv) (url : String) : Except ImreadError (Option CvImage) :=
  match env.fetch url with
  | .error _ => .error (.fetchError url)
  | .ok content => .ok (env.imdecode content)

/-- `imread(data)`: linear dispatch — `np.ndarray` pass-through, PIL image via
`pil2cv`, `data:image/` prefix, `^https?://` pattern, `os.path.isfile`,
else `IOError("image read invalid data: %s")`.  In the file branch a `None`
from `cv2.imread` raises `IOError("Image format error: %s")`. -/
def imread (env : DecodeEnv) (data : ImageRef) : Except ImreadError (Option CvImage) :=
  match data with
  | .ndarray img => .ok (some img)
  | .pil img => .ok (some (env.pil2cv img))
  | .str s =>
    if strStartsWith s "data:image/" then _open_data_url env s
    else if strStartsWith s "http://" || strStartsWith s "https://" then _open_image_url env s
    else if env.fileExists s then
      match env.cvimread s with
      | none => .error (.imageFormatError s)
      | some im => .ok (some im)
    else .error (.invalidData s)

/-- The dictionary `ImageX.match` returns:
`{"similarity": target_sim, "point": result['target_point']}`. -/
structure MatchResult where
  similarity : ℚ
  point : ℤ × ℤ
deriving DecidableEq

/-- Outcome of `ImageX.__wait`: a returned match, the implicit `None` after
the `while` loop exhausts its deadline, or exhaustion of the modelling fuel
(an artifact of the embedding — Python's loop is bounded by real time, not
by an iteration count). -/
inductive WaitRes where
  | found (m : MatchResult)
  | timedOut
  | outOfFuel
deriving DecidableEq

/-- Observable-effect counters threaded through the loop:
`clockIdx` counts `time.time()` reads (the clock is a function of this index),
`matchIdx` counts `ImageX.match` calls, `decodes` counts `imread` calls,
`captures` counts `d.screenshot` calls, `settleSleeps` counts `time.sleep(.1)`
calls, `clicks` counts `d.click` calls. -/
structure LoopState where
  clockIdx : Nat
  matchIdx : Nat
  decodes : Nat
  captures : Nat
  settleSleeps : Nat
  clicks : Nat
deriving DecidableEq

/-- `ImageX.send_click(x, y)`: pass `d.click(x, y)` through unchanged. -/
def ImageX.send_click {R : Type} (dclick : ℤ → ℤ → R) (x y : ℤ) (s : LoopState) :
    R × LoopState :=
  (dclick x y, { s with clicks := s.clicks + 1 })

/-- `ImageX.match(imdata)`: `imread(imdata)` (one decode of the template
reference per call), one `d.screenshot` capture, then the findit engine
scores template against frame.  The engine's successive outputs are the
environment sequence `matchEnv`; the similarity is returned exactly as the
engine produced it — the source performs no range check and no clamping. -/
def ImageX.«match» (matchEnv : Nat → MatchResult) (s : LoopState) :
    MatchResult × LoopState :=
  (matchEnv s.matchIdx,
   { s with
     matchIdx := s.matchIdx + 1
     decodes := s.decodes + 1
     captures := s.captures + 1 })

/-- The `while time.time() < deadline` loop of `ImageX.__wait`.  Each
iteration: one clock read for the guard; on entry one `match` call, one clock
read inside `logger.debug` (its value only feeds the log message), then
either `continue` with no sleep (similarity below threshold) or
`time.sleep(.1)` and `return m`.  Falling out of the loop returns `None`
(`timedOut`).  `fuel` bounds the recursion for the embedding only. -/
def ImageX.waitLoop (clock : Nat → ℚ) (matchEnv : Nat → MatchResult)
    (threshold deadline : ℚ) : Nat → LoopState → WaitRes × LoopState
  | 0, s => (.outOfFuel, s)
  | fuel + 1, s =>
    let t := clock s.clockIdx
    let s1 : LoopState := { s with clockIdx := s.clockIdx + 1 }
    if t < deadline then
      let ms := ImageX.«match» matchEnv s1
      let s2 : LoopState := { ms.2 with clockIdx := ms.2.clockIdx + 1 }
      if ms.1.similarity < threshold then
        ImageX.waitLoop clock matchEnv threshold deadline fuel s2
      else
        (.found ms.1, { s2 with settleSleeps := s2.settleSleeps + 1 })
    else
      (.timedOut, s1)

/-- `ImageX.__wait(imdata, timeout, threshold)`:
`deadline = time.time() + timeout` computed once, then the poll loop. -/
def ImageX.__wait (clock : Nat → ℚ) (matchEnv : Nat → MatchResult)
    (timeout threshold : ℚ) (fuel : Nat) (s : LoopState) : WaitRes × LoopState :=
  let deadline := clock s.clockIdx + timeout
  ImageX.waitLoop clock matchEnv threshold deadline fuel
    { s with clockIdx := s.clockIdx + 1 }

/-- `ImageX.wait(imdata, timeout)`: `__wait` at threshold 0.8; `None` is
returned as is; otherwise `__wait` again with the same `timeout` (hence a
fresh `deadline = time.time() + timeout`) at threshold 0.9, returned as is. -/
def ImageX.wait (clock : Nat → ℚ) (matchEnv : Nat → MatchResult)
    (timeout : ℚ) (fuel : Nat) (s : LoopState) : WaitRes × LoopState :=
  match ImageX.__wait clock matchEnv timeout (mkRat 8 10) fuel s with
  | (.found _, s1) => ImageX.__wait clock matchEnv timeout (mkRat 9 10) fuel s1
  | (r, s1) => (r, s1)

/-- Outcome of `ImageX.click`: the device click's return value passed through,
or `RuntimeError("image object not found")`, or the fuel artifact. -/
inductive ClickRes (R : Type) where
  | clicked (r : R)
  | imageObjectNotFound
  | outOfFuel
deriving DecidableEq

/-- `ImageX.click(imdata, timeout)`: `wait`; on `None` raise
`RuntimeError("image object not found")`; otherwise unpack `res['point']`
and return `send_click(x, y)` unchanged. -/
def ImageX.click {R : Type} (dclick : ℤ → ℤ → R) (clock : Nat → ℚ)
    (matchEnv : Nat → MatchResult) (timeout : ℚ) (fuel : Nat) (s : LoopState) :
    ClickRes R × LoopState :=
  match ImageX.wait clock matchEnv timeout fuel s with
  | (.found m, s1) =>
    let c := ImageX.send_click dclick m.point.1 m.point.2 s1
    (.clicked c.1, c.2)
  | (.timedOut, s1) => (.imageObjectNotFound, s1)
  | (.outOfFuel, s1) => (.outOfFuel, s1)

/-- The all-zero starting state of a fresh call. -/
def s0 : LoopState := ⟨0, 0, 0, 0, 0, 0⟩

/-- A clock advancing by one second per read. -/
def clockEx : Nat → ℚ := fun n => (n : ℚ)

/-- Engine outputs: one below-low-threshold score, then a tier-one success,
then a tier-two success. -/
def envEx : Nat → MatchResult := fun n =>
  if n = 0 then ⟨mkRat 1 2, (0, 0)⟩
  else if n = 1 then ⟨mkRat 17 20, (5, 6)⟩
  else ⟨mkRat 19 20, (7, 8)⟩

/-- An ingestion environment whose image decoders always fail:
`cv2.imdecode` and `cv2.imread` return `None`, the fetch succeeds with
undecodable bytes, and no path exists on the filesystem. -/
def envUndecodable : DecodeEnv where
  b64decode := fun _ => [0]
  imdecode := fun _ => none
  fetch := fun _ => .ok [0]
  fileExists := fun _ => false
  cvimread := fun _ => none
  pil2cv := fun _ => ⟨0⟩

/-- An ingestion environment in which every path names an existing file
whose bytes `cv2.imread` cannot decode. -/
def envBadFile : DecodeEnv where
  b64decode := fun _ => [0]
  imdecode := fun _ => none
  fetch := fun _ => .ok [0]
  fileExists := fun _ => true
  cvimread := fun _ => none
  pil2cv := fun _ => ⟨0⟩

/-- An engine that reports a similarity of 3/2, outside [0,1]. -/
def envOutOfRange : Nat → MatchResult := fun _ => ⟨mkRat 3 2, (0, 0)⟩

/-- An engine that always scores above the high threshold. -/
def envHigh : Nat → MatchResult := fun _ => ⟨mkRat 19 20, (1, 2)⟩

/-- A clock that jumps far ahead right after the first read: the deadline
passes during the first poll cycle. -/
def clockW : Nat → ℚ := fun n => if n = 0 then 0 else 100

/-- A clock agreeing with `clockEx` on even read indices (the loop-guard
reads of a tier entered at `clockIdx = 0`) and wild elsewhere. -/
def clock2W : Nat → ℚ := fun n => if n % 2 = 0 then (n : ℚ) else 999

/-- State after one full below-threshold poll cycle: two clock reads
(loop guard and the `logger.debug` argument), one `match` call with its
decode and capture, no sleep. -/
def cycleState (s : LoopState) : LoopState :=
  ⟨s.clockIdx + 1 + 1, s.matchIdx + 1, s.decodes + 1, s.captures + 1, s.settleSleeps, s.clicks⟩

/-- State after a succeeding poll cycle: as `cycleState` plus the
`time.sleep(.1)` settle delay. -/
def foundState (s : LoopState) : LoopState :=
  ⟨s.clockIdx + 1 + 1, s.matchIdx + 1, s.decodes + 1, s.captures + 1, s.settleSleeps + 1,
    s.clicks⟩

theorem cycleState_clockIdx (s : LoopState) : (cycleState s).clockIdx = s.clockIdx + 1 + 1 := rfl

theorem cycleState_matchIdx (s : LoopState) : (cycleState s).matchIdx = s.matchIdx + 1 := rfl

theorem cycleState_decodes (s : LoopState) : (cycleState s).decodes = s.decodes + 1 := rfl

theorem cycleState_captures (s : LoopState) : (cycleState s).captures = s.captures + 1 := rfl

theorem cycleState_settleSleeps (s : LoopState) :
    (cycleState s).settleSleeps = s.settleSleeps := rfl

theorem cycleState_clicks (s : LoopState) : (cycleState s).clicks = s.clicks := rfl

theorem waitLoop_zero (clock : Nat → ℚ) (matchEnv : Nat → MatchResult) (thr dl : ℚ)
    (s : LoopState) : ImageX.waitLoop clock matchEnv thr dl 0 s = (.outOfFuel, s) := rfl

theorem waitLoop_succ (clock : Nat → ℚ) (matchEnv : Nat → MatchResult) (thr dl : ℚ)
    (n : Nat) (s : LoopState) :
    ImageX.waitLoop clock matchEnv thr dl (n + 1) s =
      if clock s.clockIdx < dl then
        if (matchEnv s.matchIdx).similarity < thr then
          ImageX.waitLoop clock matchEnv thr dl n (cycleState s)
        else
          (.found (matchEnv s.matchIdx), foundState s)
      else
        (.timedOut, { s with clockIdx := s.clockIdx + 1 }) := rfl

theorem waitLoop_props (clock : Nat → ℚ) (matchEnv : Nat → MatchResult) (thr dl : ℚ) :
    ∀ (fuel : Nat) (s : LoopState),
      (∀ m, (ImageX.waitLoop clock matchEnv thr dl fuel s).1 = .found m →
        (∃ k, m = matchEnv k) ∧ thr ≤ m.similarity ∧
          (ImageX.waitLoop clock matchEnv thr dl fuel s).2.settleSleeps
            = s.settleSleeps + 1) ∧
      ((ImageX.waitLoop clock matchEnv thr dl fuel s).1 = .timedOut ∨
          (ImageX.waitLoop clock matchEnv thr dl fuel s).1 = .outOfFuel →
        (ImageX.waitLoop clock matchEnv thr dl fuel s).2.settleSleeps = s.settleSleeps) ∧
      ((ImageX.waitLoop clock matchEnv thr dl fuel s).2.clicks = s.clicks ∧
        (ImageX.waitLoop clock matchEnv thr dl fuel s).2.decodes + s.matchIdx
          = s.decodes + (ImageX.waitLoop clock matchEnv thr dl fuel s).2.matchIdx ∧
        (ImageX.waitLoop clock matchEnv thr dl fuel s).2.captures + s.matchIdx
          = s.captures + (ImageX.waitLoop clock matchEnv thr dl fuel s).2.matchIdx) := by
  intro fuel
  induction fuel with
  | zero =>
    intro s
    refine ⟨?_, ?_, ?_⟩
    · intro m h
      rw [waitLoop_zero] at h
      exact absurd h (by simp)
    · intro _
      simp [waitLoop_zero]
    · simp [waitLoop_zero]
  | succ n ih =>
    intro s
    rw [waitLoop_succ]
    by_cases h1 : clock s.clockIdx < dl
    · rw [if_pos h1]
      by_cases h2 : (matchEnv s.matchIdx).similarity < thr
      · rw [if_pos h2]
        obtain ⟨ihA, ihB, ihC⟩ := ih (cycleState s)
        refine ⟨?_, ?_, ?_⟩
        · intro m h
          obtain ⟨hk, hle, hsl⟩ := ihA m h
          refine ⟨hk, hle, ?_⟩
          rwa [cycleState_settleSleeps] at hsl
        · intro h
          have hb := ihB h
          rwa [cycleState_settleSleeps] at hb
        · obtain ⟨hc, hd, hcap⟩ := ihC
          refine ⟨by rwa [cycleState_clicks] at hc, ?_, ?_⟩
          · rw [cycleState_matchIdx, cycleState_decodes] at hd
            omega
          · rw [cycleState_matchIdx, cycleState_captures] at hcap
            omega
      · rw [if_neg h2]
        refine ⟨?_, ?_, ?_⟩
        · intro m h
          simp only at h
          injection h with hm
          subst hm
          exact ⟨⟨s.matchIdx, rfl⟩, le_of_not_lt h2, by simp [foundState]⟩
        · intro h
          simp at h
        · simp [foundState]
          omega
    · rw [if_neg h1]
      refine ⟨?_, ?_, ?_⟩
      · intro m h
        simp at h
      · intro _
        rfl
      · refine ⟨rfl, ?_, ?_⟩ <;> simp

theorem __wait_def (clock : Nat → ℚ) (matchEnv : Nat → MatchResult) (timeout thr : ℚ)
    (fuel : Nat) (s : LoopState) :
    ImageX.__wait clock matchEnv timeout thr fuel s =
      ImageX.waitLoop clock matchEnv thr (clock s.clockIdx + timeout) fuel
        { s with clockIdx := s.clockIdx + 1 } := rfl

theorem __wait_found_le (clock : Nat → ℚ) (matchEnv : Nat → MatchResult) (timeout thr : ℚ)
    (fuel : Nat) (s : LoopState) (m : MatchResult)
    (h : (ImageX.__wait clock matchEnv timeout thr fuel s).1 = .found m) :
    (∃ k, m = matchEnv k) ∧ thr ≤ m.similarity := by
  rw [__wait_def] at h
  obtain ⟨hk, hle, _⟩ :=
    ((waitLoop_props clock matchEnv thr (clock s.clockIdx + timeout) fuel
      { s with clockIdx := s.clockIdx + 1 }).1 m h)
  exact ⟨hk, hle⟩

theorem __wait_clicks (clock : Nat → ℚ) (matchEnv : Nat → MatchResult) (timeout thr : ℚ)
    (fuel : Nat) (s : LoopState) :
    (ImageX.__wait clock matchEnv timeout thr fuel s).2.clicks = s.clicks := by
  rw [__wait_def]
  exact (waitLoop_props clock matchEnv thr (clock s.clockIdx + timeout) fuel
    { s with clockIdx := s.clockIdx + 1 }).2.2.1

theorem __wait_decodes (clock : Nat → ℚ) (matchEnv : Nat → MatchResult) (timeout thr : ℚ)
    (fuel : Nat) (s : LoopState) :
    (ImageX.__wait clock matchEnv timeout thr fuel s).2.decodes + s.matchIdx
        = s.decodes + (ImageX.__wait clock matchEnv timeout thr fuel s).2.matchIdx ∧
      (ImageX.__wait clock matchEnv timeout thr fuel s).2.captures + s.matchIdx
        = s.captures + (ImageX.__wait clock matchEnv timeout thr fuel s).2.matchIdx := by
  rw [__wait_def]
  exact ⟨(waitLoop_props clock matchEnv thr (clock s.clockIdx + timeout) fuel
      { s with clockIdx := s.clockIdx + 1 }).2.2.2.1,
    (waitLoop_props clock matchEnv thr (clock s.clockIdx + timeout) fuel
      { s with clockIdx := s.clockIdx + 1 }).2.2.2.2⟩

theorem wait_eq (clock : Nat → ℚ) (matchEnv : Nat → MatchResult) (timeout : ℚ)
    (fuel : Nat) (s : LoopState) :
    ImageX.wait clock matchEnv timeout fuel s =
      match ImageX.__wait clock matchEnv timeout (mkRat 8 10) fuel s with
      | (.found _, s1) => ImageX.__wait clock matchEnv timeout (mkRat 9 10) fuel s1
      | (r, s1) => (r, s1) := rfl

theorem wait_clicks (clock : Nat → ℚ) (matchEnv : Nat → MatchResult) (timeout : ℚ)
    (fuel : Nat) (s : LoopState) :
    (ImageX.wait clock matchEnv timeout fuel s).2.clicks = s.clicks := by
  rw [wait_eq]
  rcases h1 : ImageX.__wait clock matchEnv timeout (mkRat 8 10) fuel s with ⟨r1, s1⟩
  have hc1 : s1.clicks = s.clicks := by
    have := __wait_clicks clock matchEnv timeout (mkRat 8 10) fuel s
    rwa [h1] at this
  cases r1 with
  | found m =>
    simp only
    rw [__wait_clicks clock matchEnv timeout (mkRat 9 10) fuel s1, hc1]
  | timedOut => exact hc1
  | outOfFuel => exact hc1

theorem waitLoop_clock_agree (matchEnv : Nat → MatchResult) (thr dl : ℚ) :
    ∀ (fuel : Nat) (s : LoopState) (clock clock2 : Nat → ℚ),
      (∀ k, clock2 (s.clockIdx + 2 * k) = clock (s.clockIdx + 2 * k)) →
      ImageX.waitLoop clock2 matchEnv thr dl fuel s
        = ImageX.waitLoop clock matchEnv thr dl fuel s := by
  intro fuel
  induction fuel with
  | zero => intro s _ _ _; rfl
  | succ n ih =>
    intro s clock clock2 hag
    rw [waitLoop_succ, waitLoop_succ]
    have h0 : clock2 s.clockIdx = clock s.clockIdx := by simpa using hag 0
    rw [h0]
    by_cases h1 : clock s.clockIdx < dl
    · rw [if_pos h1, if_pos h1]
      by_cases h2 : (matchEnv s.matchIdx).similarity < thr
      · rw [if_pos h2, if_pos h2]
        apply ih
        intro k
        rw [cycleState_clockIdx]
        have hidx : s.clockIdx + 1 + 1 + 2 * k = s.clockIdx + 2 * (k + 1) := by ring
        rw [hidx]
        exact hag (k + 1)
      · rw [if_neg h2, if_neg h2]
    · rw [if_neg h1, if_neg h1]

/-- C1: `ImageX.wait` is a two-tier confirmation.  The first `__wait` polls
against the low threshold 0.8; on its success the second `__wait` runs with
the same original `timeout` — hence a fresh deadline window
`time.time() + timeout` — against the high threshold 0.9.  A non-empty
(`found`) result is only ever one whose similarity clears 0.9; a timeout in
the first tier, or a first-tier success followed by a second-tier timeout,
makes the overall outcome `timedOut` (absence of a result), never a partial
or zero-similarity result. -/
theorem wait_two_tier_confirmation (clock : Nat → ℚ) (matchEnv : Nat → MatchResult)
    (timeout : ℚ) (fuel : Nat) (s : LoopState) :
    (∀ m, (ImageX.wait clock matchEnv timeout fuel s).1 = .found m →
      mkRat 9 10 ≤ m.similarity) ∧
    ((ImageX.__wait clock matchEnv timeout (mkRat 8 10) fuel s).1 = .timedOut →
      (ImageX.wait clock matchEnv timeout fuel s).1 = .timedOut) ∧
    (∀ m1 s1, ImageX.__wait clock matchEnv timeout (mkRat 8 10) fuel s = (.found m1, s1) →
      ImageX.wait clock matchEnv timeout fuel s
        = ImageX.waitLoop clock matchEnv (mkRat 9 10) (clock s1.clockIdx + timeout) fuel
            { s1 with clockIdx := s1.clockIdx + 1 }) ∧
    (∀ m1 s1, ImageX.__wait clock matchEnv timeout (mkRat 8 10) fuel s = (.found m1, s1) →
      (ImageX.__wait clock matchEnv timeout (mkRat 9 10) fuel s1).1 = .timedOut →
      (ImageX.wait clock matchEnv timeout fuel s).1 = .timedOut) := by
  refine ⟨?_, ?_, ?_, ?_⟩
  · intro m h
    rw [wait_eq] at h
    rcases h1 : ImageX.__wait clock matchEnv timeout (mkRat 8 10) fuel s with ⟨r1, s1⟩
    rw [h1] at h
    cases r1 with
    | found m1 =>
      exact (__wait_found_le clock matchEnv timeout (mkRat 9 10) fuel s1 m h).2
    | timedOut => exact WaitRes.noConfusion h
    | outOfFuel => exact WaitRes.noConfusion h
  · intro h
    rw [wait_eq]
    rcases h1 : ImageX.__wait clock matchEnv timeout (mkRat 8 10) fuel s with ⟨r1, s1⟩
    rw [h1] at h
    cases r1 with
    | found m1 => exact WaitRes.noConfusion h
    | timedOut => rfl
    | outOfFuel => exact WaitRes.noConfusion h
  · intro m1 s1 h1
    rw [wait_eq, h1]
    rfl
  · intro m1 s1 h1 h2
    rw [wait_eq, h1]
    exact h2

/-- Engine giving a tier-one success at the first cycle and below-threshold
scores afterwards: with a short timeout the second tier then times out. -/
def envT : Nat → MatchResult := fun n =>
  if n = 0 then ⟨mkRat 17 20, (5, 6)⟩ else ⟨mkRat 1 2, (0, 0)⟩

/-- Witness for C1 at concrete inputs: a found result with similarity 19/20,
a first-tier timeout, a first-tier success handing over to the second tier,
and a second-tier timeout. -/
theorem wait_two_tier_confirmation_witness :
    (mkRat 9 10 ≤ (MatchResult.mk (mkRat 19 20) (7, 8)).similarity) ∧
    ((ImageX.wait clockEx envEx 0 5 s0).1 = .timedOut) ∧
    (ImageX.wait clockEx envEx 100 10 s0
      = ImageX.waitLoop clockEx envEx (mkRat 9 10) (clockEx 5 + 100) 10 ⟨6, 2, 2, 2, 1, 0⟩) ∧
    ((ImageX.wait clockEx envT 3 10 s0).1 = .timedOut) := by
  refine ⟨?_, ?_, ?_, ?_⟩
  · exact (wait_two_tier_confirmation clockEx envEx 100 10 s0).1 ⟨mkRat 19 20, (7, 8)⟩
      (by with_unfolding_all decide)
  · exact (wait_two_tier_confirmation clockEx envEx 0 5 s0).2.1
      (by with_unfolding_all decide)
  · exact (wait_two_tier_confirmation clockEx envEx 100 10 s0).2.2.1
      ⟨mkRat 17 20, (5, 6)⟩ ⟨5, 2, 2, 2, 1, 0⟩ (by with_unfolding_all decide)
  · exact (wait_two_tier_confirmation clockEx envT 3 10 s0).2.2.2
      ⟨mkRat 17 20, (5, 6)⟩ ⟨3, 1, 1, 1, 1, 0⟩ (by with_unfolding_all decide)
      (by with_unfolding_all decide)

/-- C2: poll-cycle behaviour of a tier.  The tier computes
`deadline = time.time() + timeout` exactly once at its start; a cycle whose
score is below the tier's threshold re-iterates immediately with no sleep
(`cycleState` leaves `settleSleeps` unchanged); the loop runs only while
`now() < deadline`, otherwise it ends with no result; a cycle whose score
meets or exceeds the threshold sleeps the fixed 0.1 s settle delay
(`foundState` increments `settleSleeps`) and returns that cycle's
`MatchResult`. -/
theorem poll_cycle_behavior (clock : Nat → ℚ) (matchEnv : Nat → MatchResult)
    (timeout thr dl : ℚ) (fuel : Nat) (s : LoopState) :
    (ImageX.__wait clock matchEnv timeout thr fuel s
      = ImageX.waitLoop clock matchEnv thr (clock s.clockIdx + timeout) fuel
          { s with clockIdx := s.clockIdx + 1 }) ∧
    (clock s.clockIdx < dl → (matchEnv s.matchIdx).similarity < thr →
      ImageX.waitLoop clock matchEnv thr dl (fuel + 1) s
        = ImageX.waitLoop clock matchEnv thr dl fuel (cycleState s)) ∧
    (¬ clock s.clockIdx < dl →
      ImageX.waitLoop clock matchEnv thr dl (fuel + 1) s
        = (.timedOut, { s with clockIdx := s.clockIdx + 1 })) ∧
    (clock s.clockIdx < dl → thr ≤ (matchEnv s.matchIdx).similarity →
      ImageX.waitLoop clock matchEnv thr dl (fuel + 1) s
        = (.found (matchEnv s.matchIdx), foundState s)) ∧
    ((cycleState s).settleSleeps = s.settleSleeps ∧
      (foundState s).settleSleeps = s.settleSleeps + 1) := by
  refine ⟨rfl, ?_, ?_, ?_, rfl, rfl⟩
  · intro h1 h2
    rw [waitLoop_succ, if_pos h1, if_pos h2]
  · intro h1
    rw [waitLoop_succ, if_neg h1]
  · intro h1 h2
    rw [waitLoop_succ, if_pos h1, if_neg (not_lt.mpr h2)]

/-- Witness for C2 at concrete inputs: a below-threshold cycle loops with no
sleep, an expired deadline ends the tier, an above-threshold cycle sleeps
once and returns its result. -/
theorem poll_cycle_behavior_witness :
    (ImageX.waitLoop clockEx envEx (mkRat 8 10) 100 6 s0
      = ImageX.waitLoop clockEx envEx (mkRat 8 10) 100 5 (cycleState s0)) ∧
    (ImageX.waitLoop clockEx envEx (mkRat 8 10) 0 6 s0
      = (.timedOut, { s0 with clockIdx := s0.clockIdx + 1 })) ∧
    (ImageX.waitLoop clockEx envEx (mkRat 8 10) 100 6 (cycleState s0)
      = (.found (envEx (cycleState s0).matchIdx), foundState (cycleState s0))) := by
  refine ⟨?_, ?_, ?_⟩
  · exact (poll_cycle_behavior clockEx envEx 100 (mkRat 8 10) 100 5 s0).2.1
      (by decide) (by decide)
  · exact (poll_cycle_behavior clockEx envEx 100 (mkRat 8 10) 0 5 s0).2.2.1
      (by decide)
  · exact (poll_cycle_behavior clockEx envEx 100 (mkRat 8 10) 100 5 (cycleState s0)).2.2.2.1
      (by decide) (by decide)

/-- C9: with `timeout ≤ 0` and a monotone clock, `ImageX.wait` returns the
no-result outcome (`timedOut`) at once: the deadline is computed and the
guard checked (two clock reads, `clockIdx + 1 + 1`), but no frame is
captured, no match is scored, and no settle sleep happens in either tier —
the final state differs from the initial one only in `clockIdx`. -/
theorem wait_nonpositive_timeout (clock : Nat → ℚ) (matchEnv : Nat → MatchResult)
    (timeout : ℚ) (fuel : Nat) (s : LoopState)
    (hmono : ∀ i j, i ≤ j → clock i ≤ clock j) (ht : timeout ≤ 0) (hfuel : fuel ≠ 0) :
    ImageX.wait clock matchEnv timeout fuel s
      = (.timedOut, { s with clockIdx := s.clockIdx + 1 + 1 }) := by
  obtain ⟨n, rfl⟩ : ∃ n, fuel = n + 1 := ⟨fuel - 1, by omega⟩
  have hguard : ¬ clock (s.clockIdx + 1) < clock s.clockIdx + timeout := by
    have h1 : clock s.clockIdx ≤ clock (s.clockIdx + 1) := hmono _ _ (Nat.le_succ _)
    have h2 : clock s.clockIdx + timeout ≤ clock s.clockIdx := by linarith
    exact not_lt.mpr (le_trans h2 h1)
  have htier : ImageX.__wait clock matchEnv timeout (mkRat 8 10) (n + 1) s
      = (.timedOut, { s with clockIdx := s.clockIdx + 1 + 1 }) := by
    rw [__wait_def, waitLoop_succ]
    have hg : ¬ clock ({ s with clockIdx := s.clockIdx + 1 } : LoopState).clockIdx
        < clock s.clockIdx + timeout := hguard
    rw [if_neg hg]
  rw [wait_eq, htier]

/-- Witness for C9: `wait` with `timeout = 0` on the one-second clock times
out immediately with only the two clock reads. -/
theorem wait_nonpositive_timeout_witness :
    ImageX.wait clockEx envEx 0 3 s0
      = (.timedOut, { s0 with clockIdx := s0.clockIdx + 1 + 1 }) :=
  wait_nonpositive_timeout clockEx envEx 0 3 s0
    (fun i j h => by simp only [clockEx]; exact_mod_cast h)
    (le_refl 0) (by decide)

/-- C10: within one tier the deadline is consulted only at the start of each
poll cycle.  If a cycle begins strictly before the deadline and its score
meets the threshold, the cycle returns its result (after the settle sleep)
no matter what the clock does later — in particular even when the deadline
passes during the cycle; and the tier's entire outcome is unchanged under
any modification of the clock away from the cycle-start read indices
`clockIdx + 2·k`. -/
theorem deadline_consulted_at_cycle_start (clock : Nat → ℚ) (matchEnv : Nat → MatchResult)
    (thr dl : ℚ) (fuel : Nat) (s : LoopState) :
    (clock s.clockIdx < dl → thr ≤ (matchEnv s.matchIdx).similarity →
      ImageX.waitLoop clock matchEnv thr dl (fuel + 1) s
        = (.found (matchEnv s.matchIdx), foundState s)) ∧
    (∀ clock2, (∀ k, clock2 (s.clockIdx + 2 * k) = clock (s.clockIdx + 2 * k)) →
      ImageX.waitLoop clock2 matchEnv thr dl fuel s
        = ImageX.waitLoop clock matchEnv thr dl fuel s) := by
  constructor
  · intro h1 h2
    rw [waitLoop_succ, if_pos h1, if_neg (not_lt.mpr h2)]
  · intro clock2 hag
    exact waitLoop_clock_agree matchEnv thr dl fuel s clock clock2 hag

/-- Witness for C10: under `clockW` the deadline (1) passes during the very
first cycle (`clockW 1 = 100`), yet the qualifying score is returned; and a
clock wild at the non-guard indices (`clock2W`) leaves the tier's outcome
unchanged. -/
theorem deadline_consulted_at_cycle_start_witness :
    (ImageX.waitLoop clockW envHigh (mkRat 9 10) 1 5 s0
      = (.found (envHigh s0.matchIdx), foundState s0)) ∧
    (ImageX.waitLoop clock2W envEx (mkRat 8 10) 100 6 s0
      = ImageX.waitLoop clockEx envEx (mkRat 8 10) 100 6 s0) := by
  constructor
  · exact (deadline_consulted_at_cycle_start clockW envHigh (mkRat 9 10) 1 4 s0).1
      (by decide) (by decide)
  · refine (deadline_consulted_at_cycle_start clockEx envEx (mkRat 8 10) 100 6 s0).2
      clock2W ?_
    intro k
    have h2 : (s0.clockIdx + 2 * k) % 2 = 0 := by
      show (0 + 2 * k) % 2 = 0
      omega
    simp [clock2W, clockEx, h2]

theorem click_eq {R : Type} (dclick : ℤ → ℤ → R) (clock : Nat → ℚ)
    (matchEnv : Nat → MatchResult) (timeout : ℚ) (fuel : Nat) (s : LoopState) :
    ImageX.click dclick clock matchEnv timeout fuel s =
      match ImageX.wait clock matchEnv timeout fuel s with
      | (.found m, s1) =>
        (.clicked (dclick m.point.1 m.point.2), { s1 with clicks := s1.clicks + 1 })
      | (.timedOut, s1) => (.imageObjectNotFound, s1)
      | (.outOfFuel, s1) => (.outOfFuel, s1) := rfl

/-- C3: `ImageX.click` either invokes the device click primitive exactly once
at the matched point (the `clicks` counter rises by exactly one) and returns
its result untouched, or — when `wait` produced no result — fails with
`RuntimeError("image object not found")` without invoking the primitive
(`clicks` unchanged).  The two outcomes are exhaustive (given the fuel
artifact is excluded) and mutually exclusive. -/
theorem click_once_or_not_found {R : Type} (dclick : ℤ → ℤ → R) (clock : Nat → ℚ)
    (matchEnv : Nat → MatchResult) (timeout : ℚ) (fuel : Nat) (s : LoopState)
    (hfuel : (ImageX.wait clock matchEnv timeout fuel s).1 ≠ .outOfFuel) :
    ((∃ m, (ImageX.wait clock matchEnv timeout fuel s).1 = .found m ∧
        (ImageX.click dclick clock matchEnv timeout fuel s).1
          = .clicked (dclick m.point.1 m.point.2) ∧
        (ImageX.click dclick clock matchEnv timeout fuel s).2.clicks = s.clicks + 1) ∨
      ((ImageX.wait clock matchEnv timeout fuel s).1 = .timedOut ∧
        (ImageX.click dclick clock matchEnv timeout fuel s).1 = .imageObjectNotFound ∧
        (ImageX.click dclick clock matchEnv timeout fuel s).2.clicks = s.clicks)) ∧
    ¬((∃ m, (ImageX.wait clock matchEnv timeout fuel s).1 = .found m) ∧
      (ImageX.wait clock matchEnv timeout fuel s).1 = .timedOut) := by
  rw [click_eq]
  rcases hw : ImageX.wait clock matchEnv timeout fuel s with ⟨r, s1⟩
  rw [hw] at hfuel
  have hcl := wait_clicks clock matchEnv timeout fuel s
  rw [hw] at hcl
  cases r with
  | found m =>
    refine ⟨Or.inl ⟨m, rfl, rfl, ?_⟩, ?_⟩
    · exact congrArg Nat.succ hcl
    · rintro ⟨-, hto⟩
      exact WaitRes.noConfusion hto
  | timedOut =>
    refine ⟨Or.inr ⟨rfl, rfl, hcl⟩, ?_⟩
    rintro ⟨⟨m', hm'⟩, -⟩
    exact WaitRes.noConfusion hm'
  | outOfFuel => exact absurd rfl hfuel

/-- Witness for C3 at concrete inputs: the engine succeeds at point (7, 8),
the click primitive is invoked exactly once there, its result passed through. -/
theorem click_once_or_not_found_witness :
    ((∃ m, (ImageX.wait clockEx envEx 100 10 s0).1 = .found m ∧
        (ImageX.click (fun x y => (x, y)) clockEx envEx 100 10 s0).1
          = .clicked (m.point.1, m.point.2) ∧
        (ImageX.click (fun x y => (x, y)) clockEx envEx 100 10 s0).2.clicks
          = s0.clicks + 1) ∨
      ((ImageX.wait clockEx envEx 100 10 s0).1 = .timedOut ∧
        (ImageX.click (fun x y => (x, y)) clockEx envEx 100 10 s0).1
          = .imageObjectNotFound ∧
        (ImageX.click (fun x y => (x, y)) clockEx envEx 100 10 s0).2.clicks
          = s0.clicks)) ∧
    ¬((∃ m, (ImageX.wait clockEx envEx 100 10 s0).1 = .found m) ∧
      (ImageX.wait clockEx envEx 100 10 s0).1 = .timedOut) :=
  click_once_or_not_found (fun x y => (x, y)) clockEx envEx 100 10 s0
    (by with_unfolding_all decide)

/-- C4 counterexample: over the run `ImageX.wait clockEx envEx 100` the poll
loop executes three cycles (one below-threshold, a tier-one success and a
tier-two success) and `imread` decodes the template reference three times —
not exactly once as the claim states. -/
theorem wait_decodes_thrice_counterexample :
    (ImageX.wait clockEx envEx 100 10 s0).2.decodes = 3 ∧
    ¬ (ImageX.wait clockEx envEx 100 10 s0).2.decodes = 1 := by
  with_unfolding_all decide

/-- C4 (amended): `ImageX.match` re-runs `imread` on the template reference
on every call, so within one `wait` call the number of template decodes (and
of frame captures) equals the number of poll cycles executed — decode/fetch
of the reference is repeated each cycle, not performed once up front. -/
theorem wait_decode_per_cycle (clock : Nat → ℚ) (matchEnv : Nat → MatchResult)
    (timeout : ℚ) (fuel : Nat) (s : LoopState) :
    (ImageX.wait clock matchEnv timeout fuel s).2.decodes + s.matchIdx
        = s.decodes + (ImageX.wait clock matchEnv timeout fuel s).2.matchIdx ∧
      (ImageX.wait clock matchEnv timeout fuel s).2.captures + s.matchIdx
        = s.captures + (ImageX.wait clock matchEnv timeout fuel s).2.matchIdx := by
  rw [wait_eq]
  rcases h1 : ImageX.__wait clock matchEnv timeout (mkRat 8 10) fuel s with ⟨r1, s1⟩
  have hd1 := __wait_decodes clock matchEnv timeout (mkRat 8 10) fuel s
  rw [h1] at hd1
  obtain ⟨hd1a, hd1b⟩ := hd1
  cases r1 with
  | found m =>
    obtain ⟨hd2a, hd2b⟩ := __wait_decodes clock matchEnv timeout (mkRat 9 10) fuel s1
    constructor
    · show (ImageX.__wait clock matchEnv timeout (mkRat 9 10) fuel s1).2.decodes + s.matchIdx
        = s.decodes + (ImageX.__wait clock matchEnv timeout (mkRat 9 10) fuel s1).2.matchIdx
      have ha : s1.decodes + s.matchIdx = s.decodes + s1.matchIdx := hd1a
      omega
    · show (ImageX.__wait clock matchEnv timeout (mkRat 9 10) fuel s1).2.captures + s.matchIdx
        = s.captures + (ImageX.__wait clock matchEnv timeout (mkRat 9 10) fuel s1).2.matchIdx
      have hb : s1.captures + s.matchIdx = s.captures + s1.matchIdx := hd1b
      omega
  | timedOut => exact ⟨hd1a, hd1b⟩
  | outOfFuel => exact ⟨hd1a, hd1b⟩

/-- C8 counterexample: an engine similarity of 3/2 — outside [0, 1] — is
carried unchanged in the `MatchResult`, consumed by the wait loop's
threshold comparison, and returned as a successful result; no error is
raised (the embedded `ImageX.match` has no failure outcome because the
source performs no validation). -/
theorem match_out_of_range_counterexample :
    (ImageX.«match» envOutOfRange s0).1.similarity = mkRat 3 2 ∧
    ¬ (ImageX.«match» envOutOfRange s0).1.similarity ≤ 1 ∧
    (ImageX.__wait clockEx envOutOfRange 100 (mkRat 8 10) 5 s0).1
      = .found ⟨mkRat 3 2, (0, 0)⟩ := by
  with_unfolding_all decide

/-- C8 (amended): `ImageX.match` forwards the engine's similarity unchanged —
no range validation and no clamping — and any result the wait loop returns
is exactly one of the engine's outputs, compared against the threshold as
produced, whatever its range. -/
theorem match_similarity_passthrough (clock : Nat → ℚ) (matchEnv : Nat → MatchResult)
    (thr dl : ℚ) (fuel : Nat) (s s' : LoopState) :
    ((ImageX.«match» matchEnv s').1 = matchEnv s'.matchIdx) ∧
    (∀ m, (ImageX.waitLoop clock matchEnv thr dl fuel s).1 = .found m →
      (∃ k, m = matchEnv k) ∧ thr ≤ m.similarity) := by
  refine ⟨rfl, ?_⟩
  intro m h
  obtain ⟨hk, hle, -⟩ := (waitLoop_props clock matchEnv thr dl fuel s).1 m h
  exact ⟨hk, hle⟩

/-- Witness for C8 (amended): the out-of-range similarity 3/2 flows through
the loop into the returned result. -/
theorem match_similarity_passthrough_witness :
    (∃ k, (MatchResult.mk (mkRat 3 2) (0, 0)) = envOutOfRange k) ∧
      mkRat 8 10 ≤ (MatchResult.mk (mkRat 3 2) (0, 0)).similarity :=
  (match_similarity_passthrough clockEx envOutOfRange (mkRat 8 10) 100 5 s0 s0).2
    ⟨mkRat 3 2, (0, 0)⟩ (by decide)

/-- C5: `imread` dispatches by a linear type test in the fixed order:
already-decoded buffer (`np.ndarray`, and a PIL image via `pil2cv`), then
the inline `data:image/` prefix, then the `http://`/`https://` scheme
pattern, then filesystem existence.  The first matching case wins — each
conclusion holds for every environment, so later cases are never consulted
— and a string reference matching none of the cases fails with the
`invalidData` error (`IOError("image read invalid data: ...")`). -/
theorem imread_dispatch_order (env : DecodeEnv) :
    (∀ img, imread env (.ndarray img) = .ok (some img)) ∧
    (∀ img, imread env (.pil img) = .ok (some (env.pil2cv img))) ∧
    (∀ d, strStartsWith d "data:image/" = true →
      imread env (.str d) = _open_data_url env d) ∧
    (∀ d, strStartsWith d "data:image/" = false →
      (strStartsWith d "http://" || strStartsWith d "https://") = true →
      imread env (.str d) = _open_image_url env d) ∧
    (∀ d, strStartsWith d "data:image/" = false →
      (strStartsWith d "http://" || strStartsWith d "https://") = false →
      env.fileExists d = true →
      imread env (.str d)
        = match env.cvimread d with
          | none => .error (.imageFormatError d)
          | some im => .ok (some im)) ∧
    (∀ d, strStartsWith d "data:image/" = false →
      (strStartsWith d "http://" || strStartsWith d "https://") = false →
      env.fileExists d = false →
      imread env (.str d) = .error (.invalidData d)) := by
  refine ⟨fun _ => rfl, fun _ => rfl, ?_, ?_, ?_, ?_⟩
  · intro d h
    simp [imread, h]
  · intro d h1 h2
    simp [imread, h1, h2]
  · intro d h1 h2 h3
    simp [imread, h1, h2, h3]
  · intro d h1 h2 h3
    simp [imread, h1, h2, h3]

/-- Witness for C5: each dispatch case exercised at a concrete reference. -/
theorem imread_dispatch_order_witness :
    (imread envUndecodable (.ndarray ⟨5⟩) = .ok (some ⟨5⟩)) ∧
    (imread envUndecodable (.pil ⟨7⟩) = .ok (some (envUndecodable.pil2cv ⟨7⟩))) ∧
    (imread envUndecodable (.str "data:image/png;base64,AAAA")
      = _open_data_url envUndecodable "data:image/png;base64,AAAA") ∧
    (imread envUndecodable (.str "https://x.org/t.png")
      = _open_image_url envUndecodable "https://x.org/t.png") ∧
    (imread envBadFile (.str "t.png")
      = match envBadFile.cvimread "t.png" with
        | none => .error (.imageFormatError "t.png")
        | some im => .ok (some im)) ∧
    (imread envUndecodable (.str "t.png") = .error (.invalidData "t.png")) :=
  ⟨(imread_dispatch_order envUndecodable).1 ⟨5⟩,
    (imread_dispatch_order envUndecodable).2.1 ⟨7⟩,
    (imread_dispatch_order envUndecodable).2.2.1 "data:image/png;base64,AAAA" rfl,
    (imread_dispatch_order envUndecodable).2.2.2.1 "https://x.org/t.png" rfl rfl,
    (imread_dispatch_order envBadFile).2.2.2.2.1 "t.png" rfl rfl rfl,
    (imread_dispatch_order envUndecodable).2.2.2.2.2 "t.png" rfl rfl rfl⟩

/-- C6: at the claim's failing inputs — a data URL whose base64 payload is
not a decodable image, and an HTTP reference whose fetch succeeds with
undecodable bytes — the source returns the raw `cv2.imdecode` result: a
null (`none`) in place of a pixel buffer, with no error raised.  This
contradicts the claim (and `imread`'s own documented contract of returning
an image or raising `IOError`); only the filesystem branch checks for the
`None` decode result. -/
theorem imread_undecodable_yields_none :
    imread envUndecodable (.str "data:image/png;base64,AAAA") = .ok none ∧
    imread envUndecodable (.str "http://example.com/t.png") = .ok none ∧
    _open_data_url envUndecodable "data:image/png;base64,AAAA" = .ok none ∧
    _open_image_url envUndecodable "http://example.com/t.png" = .ok none :=
  ⟨rfl, rfl, rfl, rfl⟩

/-- C7 counterexample: a path that names no existing file falls through to
the final generic raise — the very same `invalidData` error that a
reference matching no dispatch case receives — so no distinct not-found
error exists, contrary to the claim. -/
theorem imread_missing_file_counterexample :
    imread envUndecodable (.str "missing.png") = .error (.invalidData "missing.png") ∧
    imread envUndecodable (.str "@@no-case@@") = .error (.invalidData "@@no-case@@") :=
  ⟨rfl, rfl⟩

/-- C7 (amended): for a plain path reference, an existing file whose bytes
`cv2.imread` cannot decode fails with the `imageFormatError`
(`IOError("Image format error: ...")`); a non-existent path fails with the
same generic `invalidData` error used for references matching no dispatch
case, not with a distinct not-found error. -/
theorem imread_file_branch (env : DecodeEnv) (path : String)
    (h1 : strStartsWith path "data:image/" = false)
    (h2 : (strStartsWith path "http://" || strStartsWith path "https://") = false) :
    (env.fileExists path = true → env.cvimread path = none →
      imread env (.str path) = .error (.imageFormatError path)) ∧
    (env.fileExists path = false →
      imread env (.str path) = .error (.invalidData path)) := by
  constructor
  · intro h3 h4
    simp [imread, h1, h2, h3, h4]
  · intro h3
    simp [imread, h1, h2, h3]

/-- Witness for C7 (amended) at a concrete path in the two environments. -/
theorem imread_file_branch_witness :
    imread envBadFile (.str "u.png") = .error (.imageFormatError "u.png") ∧
    imread envUndecodable (.str "u.png") = .error (.invalidData "u.png") :=
  ⟨(imread_file_branch envBadFile "u.png" rfl rfl).1 rfl rfl,
    (imread_file_branch envUndecodable "u.png" rfl rfl).2 rfl⟩
